import Mathlib

/-!
Shallow embedding of `cmd/cachecmd/main.go` (haya14busa/cachecmd).

The file system is modelled as an association list from paths to file
entries (content plus modification time in nanoseconds).  The external
command's behaviour, the ambient clock `sysNow` consulted by `time.Now()`,
the injected clock `injected` (the `currentTime` field of `CacheCmd`),
the success of the detached background spawn, and the temporary-file names
chosen by `ioutil.TempFile` are inputs of the model.  Durations and times
are `Int` nanoseconds (overflow of 64-bit arithmetic is out of scope).
-/

namespace Cachecmd

/-- A file on disk: its content and its modification time (ns). -/
structure FileEntry where
  content : String
  modTime : Int
deriving Repr, DecidableEq

/-- The file system: an association list from path to entry. -/
abbrev FS := List (String × FileEntry)

/-- Look a path up in the file system. -/
def fsGet : FS → String → Option FileEntry
  | [], _ => none
  | (k, e) :: t, p => if k = p then some e else fsGet t p

/-- Remove a path (models `os.Remove`; removing a missing path is a no-op,
matching the ignored error in the source). -/
def fsRemove : FS → String → FS
  | [], _ => []
  | (k, e) :: t, p => if k = p then fsRemove t p else (k, e) :: fsRemove t p

/-- Create or overwrite a file (models `os.Create` / writing a temp file). -/
def fsSet (fs : FS) (p : String) (e : FileEntry) : FS :=
  (p, e) :: fsRemove fs p

/-- Model of `os.Rename src dst`: the entry moves, its mod time preserved. -/
def fsRename (fs : FS) (src dst : String) : FS :=
  match fsGet fs src with
  | none => fs
  | some e => fsSet (fsRemove fs src) dst e

/-- Model of `strings.Join(args, " ")` (main.go line 289). -/
def joinSpace : List String → String
  | [] => ""
  | [a] => a
  | a :: rest => a ++ " " ++ joinSpace rest

/-- The string fed to the md5 digest in `cacheFileName` (main.go lines
286-289): the namespace key, a ":" separator, then the command name, a
space, and the space-joined arguments. -/
def hashInput (cacheKey cmdName : String) (cmdArgs : List String) : String :=
  cacheKey ++ ":" ++ cmdName ++ " " ++ joinSpace cmdArgs

/-- Model of `cacheFileName` (main.go lines 285-291).  `digest` stands for
the hex md5 digest; theorems that need collision-freeness take its
injectivity as a hypothesis, and witnesses instantiate it with the
identity function. -/
def cacheFileName (digest : String → String) (cacheKey cmdName : String)
    (cmdArgs : List String) : String :=
  "v1-" ++ digest (hashInput cacheKey cmdName cmdArgs)

/-- The `option` struct of main.go (flag-derived configuration). -/
structure Opt where
  ttl : Int
  async : Bool
  cacheDir : String
  cacheKey : String
deriving Repr, DecidableEq

/-- `filepath.Join(cacheDir, cacheFileName())` (main.go lines 281-283). -/
def basePath (digest : String → String) (opt : Opt) (cmdName : String)
    (cmdArgs : List String) : String :=
  opt.cacheDir ++ "/" ++ cacheFileName digest opt.cacheKey cmdName cmdArgs

/-- `base + ".STDOUT"` (main.go line 137). -/
def stdoutPath (digest : String → String) (opt : Opt) (cmdName : String)
    (cmdArgs : List String) : String :=
  basePath digest opt cmdName cmdArgs ++ ".STDOUT"

/-- `base + ".STDERR"` (main.go line 138). -/
def stderrPath (digest : String → String) (opt : Opt) (cmdName : String)
    (cmdArgs : List String) : String :=
  basePath digest opt cmdName cmdArgs ++ ".STDERR"

/-- `base + ".EXIT_CODE"` (main.go line 139). -/
def exitCodePath (digest : String → String) (opt : Opt) (cmdName : String)
    (cmdArgs : List String) : String :=
  basePath digest opt cmdName cmdArgs ++ ".EXIT_CODE"

/-- `strconv.Atoi` applied to the single byte read by
`readExitCodeFromCache`: an ASCII digit parses to its value, anything
else makes `Atoi` fail and the ignored-error default 0 is used. -/
def atoi1 (c : Char) : Int :=
  if 48 ≤ c.toNat ∧ c.toNat ≤ 57 then (c.toNat : Int) - 48 else 0

/-- Model of `readExitCodeFromCache` (main.go lines 226-236): open the
file (missing file yields 0), read at most one byte into a one-byte
buffer (an empty file leaves the NUL zero byte there), `Atoi` it with the
error ignored. -/
def readExitCodeFromCache (fs : FS) (path : String) : Int :=
  match fsGet fs path with
  | none => 0
  | some e =>
    match e.content.data with
    | [] => atoi1 (Char.ofNat 0)
    | c :: _ => atoi1 c

/-- Go's `Time.Second()`: the second offset within the minute, for the
model's nanoseconds-since-epoch representation. -/
def secondOfMinute (t : Int) : Int :=
  (t / 1000000000) % 60

/-- The clock value `shouldUseCache` actually compares against: main.go
lines 261-263 replace `c.currentTime` by `time.Now()` whenever
`c.currentTime.Second() == 0` (the zero-value check that also fires on
any injected time on a whole-minute boundary). -/
def usedNow (injected sysNow : Int) : Int :=
  if secondOfMinute injected = 0 then sysNow else injected

/-- Model of `shouldUseCache` (main.go lines 253-265): the file must
exist and stat, and `currentTime.Add(-ttl).Sub(modTime).Seconds() < 0`. -/
def shouldUseCache (fs : FS) (injected sysNow ttl : Int) (path : String) : Bool :=
  match fsGet fs path with
  | none => false
  | some e => decide (usedNow injected sysNow - ttl - e.modTime < 0)

/-- What the external command does when the miss path executes it. -/
inductive CmdBehavior where
  /-- `cmd.Start()` fails (binary not found, exec permission denied). -/
  | startFail
  /-- The command runs to completion with the given streams and exit
  code (a non-zero code surfaces as an `exec.ExitError` whose wait
  status decodes to that code). -/
  | runs (out errOut : String) (code : Int)
deriving Repr, DecidableEq

/-- The Go errors the invocation can return to `main`. -/
inductive GoErr where
  /-- `os.Open` failed inside `fromCache` for the given path. -/
  | openErr (path : String)
  /-- `updateCacheCmd().Start()` failed on the async hit path. -/
  | spawnErr
deriving Repr, DecidableEq

/-- Result of one invocation: final file system, exit code, error. -/
structure RunResult where
  fs : FS
  exitcode : Int
  err : Option GoErr
deriving Repr, DecidableEq

/-- The cache-hit block of `fromCacheOrRun` (main.go lines 141-155):
stream the STDOUT then the STDERR artifact (a failed open is returned as
a hard error with the zero exit code), read the exit code, and in async
mode spawn the background refresh, returning any spawn error. -/
def hitPath (fs : FS) (so se ec : String) (async spawnOk : Bool) : RunResult :=
  match fsGet fs so with
  | none => ⟨fs, 0, some (GoErr.openErr so)⟩
  | some _ =>
    match fsGet fs se with
    | none => ⟨fs, 0, some (GoErr.openErr se)⟩
    | some _ =>
      let code := readExitCodeFromCache fs ec
      if async then ⟨fs, code, if spawnOk then none else some GoErr.spawnErr⟩
      else ⟨fs, code, none⟩

/-- The cache-miss block of `fromCacheOrRun` (main.go lines 157-183):
`prepareCacheFile` creates an empty temp file per stream; on start
failure `exitError` yields `(1, err)`, both temps are cancelled — each
deferred `finally` removes its temp file and the corresponding cache
file — and the deferred `err = finally()` assignments overwrite the
returned error with nil.  On completion the temps hold the streams; a
non-zero exit code is written to the EXIT_CODE file in place by
`cacheExitCode` (main.go lines 216-224, plain `os.Create`), a zero exit
writes nothing there; the deferred `finally` calls then rename the
STDERR temp and the STDOUT temp over their cache files. -/
def missPath (fs : FS) (so se ec : String) (sysNow : Int) (beh : CmdBehavior)
    (tmp1 tmp2 : String) : RunResult :=
  let fs1 := fsSet fs tmp1 ⟨"", sysNow⟩
  let fs2 := fsSet fs1 tmp2 ⟨"", sysNow⟩
  match beh with
  | CmdBehavior.startFail =>
    ⟨fsRemove (fsRemove (fsRemove (fsRemove fs2 tmp2) se) tmp1) so, 1, none⟩
  | CmdBehavior.runs out errOut code =>
    let fs3 := fsSet fs2 tmp1 ⟨out, sysNow⟩
    let fs4 := fsSet fs3 tmp2 ⟨errOut, sysNow⟩
    if code = 0 then
      ⟨fsRename (fsRename fs4 tmp2 se) tmp1 so, 0, none⟩
    else
      ⟨fsRename (fsRename (fsSet fs4 ec ⟨toString code, sysNow⟩) tmp2 se) tmp1 so,
        code, none⟩

/-- Model of `fromCacheOrRun` (main.go lines 131-184): decide hit or miss
on the freshness of the STDOUT artifact and dispatch to the
corresponding block. -/
def fromCacheOrRun (digest : String → String) (opt : Opt) (cmdName : String)
    (cmdArgs : List String) (injected sysNow : Int) (beh : CmdBehavior)
    (spawnOk : Bool) (tmp1 tmp2 : String) (fs : FS) : RunResult :=
  if shouldUseCache fs injected sysNow opt.ttl (stdoutPath digest opt cmdName cmdArgs) then
    hitPath fs (stdoutPath digest opt cmdName cmdArgs)
      (stderrPath digest opt cmdName cmdArgs)
      (exitCodePath digest opt cmdName cmdArgs) opt.async spawnOk
  else
    missPath fs (stdoutPath digest opt cmdName cmdArgs)
      (stderrPath digest opt cmdName cmdArgs)
      (exitCodePath digest opt cmdName cmdArgs) sysNow beh tmp1 tmp2

/-- Model of `CacheCmd.Run` (main.go lines 122-128): a non-nil error with
a zero exit code is reported as exit code 1. -/
def Run (digest : String → String) (opt : Opt) (cmdName : String)
    (cmdArgs : List String) (injected sysNow : Int) (beh : CmdBehavior)
    (spawnOk : Bool) (tmp1 tmp2 : String) (fs : FS) : RunResult :=
  let r := fromCacheOrRun digest opt cmdName cmdArgs injected sysNow beh spawnOk tmp1 tmp2 fs
  if r.err.isSome ∧ r.exitcode = 0 then ⟨r.fs, 1, r.err⟩ else r

/-! ## Helper lemmas about the file-system model -/

theorem fsGet_set_self (fs : FS) (p : String) (e : FileEntry) :
    fsGet (fsSet fs p e) p = some e := by
  simp [fsSet, fsGet]

theorem fsGet_remove_self (fs : FS) (p : String) :
    fsGet (fsRemove fs p) p = none := by
  induction fs with
  | nil => rfl
  | cons kv t ih =>
    obtain ⟨k, e⟩ := kv
    by_cases h : k = p
    · simpa [fsRemove, h] using ih
    · simp [fsRemove, fsGet, h, ih]

theorem fsGet_remove_ne (fs : FS) (p q : String) (h : p ≠ q) :
    fsGet (fsRemove fs p) q = fsGet fs q := by
  induction fs with
  | nil => rfl
  | cons kv t ih =>
    obtain ⟨k, e⟩ := kv
    by_cases hk : k = p
    · subst hk
      have hq : k ≠ q := h
      simp [fsRemove, fsGet, hq, ih]
    · simp [fsRemove, fsGet, hk, ih]

theorem fsGet_set_ne (fs : FS) (p q : String) (e : FileEntry) (h : p ≠ q) :
    fsGet (fsSet fs p e) q = fsGet fs q := by
  simp [fsSet, fsGet, h, fsGet_remove_ne fs p q h]

/-- Effect of the two commit renames (stderr temp first, stdout temp
second) on lookups, given the entries the temp files hold. -/
theorem rename_commit_gets (X : FS) (tmp1 tmp2 so se : String) (eo ee : FileEntry)
    (h12 : tmp1 ≠ tmp2) (h1so : tmp1 ≠ so) (h1se : tmp1 ≠ se)
    (h2so : tmp2 ≠ so) (h2se : tmp2 ≠ se) (hsose : so ≠ se)
    (ht1 : fsGet X tmp1 = some eo) (ht2 : fsGet X tmp2 = some ee) :
    fsGet (fsRename (fsRename X tmp2 se) tmp1 so) so = some eo ∧
    fsGet (fsRename (fsRename X tmp2 se) tmp1 so) se = some ee ∧
    fsGet (fsRename (fsRename X tmp2 se) tmp1 so) tmp1 = none ∧
    fsGet (fsRename (fsRename X tmp2 se) tmp1 so) tmp2 = none ∧
    (∀ p, p ≠ so → p ≠ se → p ≠ tmp1 → p ≠ tmp2 →
      fsGet (fsRename (fsRename X tmp2 se) tmp1 so) p = fsGet X p) := by
  have hY : fsRename X tmp2 se = fsSet (fsRemove X tmp2) se ee := by
    simp [fsRename, ht2]
  have hYt1 : fsGet (fsRename X tmp2 se) tmp1 = some eo := by
    rw [hY, fsGet_set_ne _ _ _ _ (Ne.symm h1se), fsGet_remove_ne _ _ _ (Ne.symm h12), ht1]
  have hF : fsRename (fsRename X tmp2 se) tmp1 so
      = fsSet (fsRemove (fsRename X tmp2 se) tmp1) so eo := by
    rw [fsRename.eq_def, hYt1]
  refine ⟨?_, ?_, ?_, ?_, ?_⟩
  · rw [hF, fsGet_set_self]
  · rw [hF, fsGet_set_ne _ _ _ _ hsose, fsGet_remove_ne _ _ _ h1se, hY, fsGet_set_self]
  · rw [hF, fsGet_set_ne _ _ _ _ (Ne.symm h1so), fsGet_remove_self]
  · rw [hF, fsGet_set_ne _ _ _ _ (Ne.symm h2so), fsGet_remove_ne _ _ _ h12, hY,
      fsGet_set_ne _ _ _ _ (Ne.symm h2se), fsGet_remove_self]
  · intro p hpso hpse hpt1 hpt2
    rw [hF, fsGet_set_ne _ _ _ _ (Ne.symm hpso), fsGet_remove_ne _ _ _ (Ne.symm hpt1),
      hY, fsGet_set_ne _ _ _ _ (Ne.symm hpse), fsGet_remove_ne _ _ _ (Ne.symm hpt2)]

/-! ## Helper lemmas about strings -/

theorem strData_append (a b : String) : (a ++ b).data = a.data ++ b.data := rfl

theorem strExt {a b : String} (h : a.data = b.data) : a = b := by
  cases a; cases b; exact congrArg String.mk h

theorem strAppend_cancel_left {a b c : String} (h : a ++ b = a ++ c) : b = c := by
  apply strExt
  have hd : a.data ++ b.data = a.data ++ c.data := by
    simpa [strData_append] using congrArg String.data h
  exact List.append_cancel_left hd

theorem strAppend_cancel_right {a b c : String} (h : a ++ c = b ++ c) : a = b := by
  apply strExt
  have hd : a.data ++ c.data = b.data ++ c.data := by
    simpa [strData_append] using congrArg String.data h
  exact List.append_cancel_right hd

theorem colon_data : (":" : String).data = [':'] := rfl

theorem space_data : (" " : String).data = [' '] := rfl

/-- Lists separated by an element that occurs in neither prefix are equal
only if the prefixes are: the core of the separator-injection argument. -/
theorem sep_cons_append_ne {sep : Char} {a : List Char} :
    ∀ {c b d : List Char}, a ++ b = c ++ d → a ≠ c → sep ∉ a → sep ∉ c →
      a ++ sep :: b ≠ c ++ sep :: d := by
  induction a with
  | nil =>
    intro c b d _ hne _ hc heq
    cases c with
    | nil => exact hne rfl
    | cons y c' =>
      simp only [List.nil_append, List.cons_append] at heq
      obtain ⟨hy, -⟩ := List.cons.inj heq
      subst hy
      exact hc (List.mem_cons_self _ _)
  | cons x a' ih =>
    intro c b d h hne ha hc heq
    cases c with
    | nil =>
      simp only [List.cons_append, List.nil_append] at heq
      obtain ⟨hx, -⟩ := List.cons.inj heq
      subst hx
      exact ha (List.mem_cons_self _ _)
    | cons y c' =>
      simp only [List.cons_append] at h heq
      obtain ⟨hxy, h'⟩ := List.cons.inj h
      obtain ⟨-, heq'⟩ := List.cons.inj heq
      subst hxy
      exact ih h' (fun hh => hne (by rw [hh]))
        (fun m => ha (List.mem_cons_of_mem _ m))
        (fun m => hc (List.mem_cons_of_mem _ m)) heq'

/-- With an injective digest, two cache file names coincide exactly when
the strings fed to the digest coincide. -/
theorem cacheFileName_eq_iff (digest : String → String)
    (hinj : Function.Injective digest) (k1 c1 : String) (a1 : List String)
    (k2 c2 : String) (a2 : List String) :
    cacheFileName digest k1 c1 a1 = cacheFileName digest k2 c2 a2 ↔
      hashInput k1 c1 a1 = hashInput k2 c2 a2 := by
  constructor
  · intro h
    exact hinj (strAppend_cancel_left h)
  · intro h
    simp [cacheFileName, h]

/-! ## Claim C7 -/

/-- C7 counterexample: the claim fails as stated.  Moving the character
":" across the namespace/command boundary makes the concatenations
coincide ("a" ++ ":b" = "a:" ++ "b", namespaces differ), yet the two
cache keys are identical, because the injected separator is itself ":"
and the digest inputs collide — for any digest function whatsoever. -/
theorem C7_cex :
    cacheFileName (fun s => s) "a" ":b" [] = cacheFileName (fun s => s) "a:" "b" [] ∧
    "a" ++ ":b" = "a:" ++ "b" ∧ ("a" : String) ≠ "a:" := by decide

/-- C7 (amended): with a collision-free digest, for every pair of inputs
where moving characters across the namespace/command boundary makes the
concatenations coincide, the two cache keys differ — provided the
separator character ":" occurs in neither namespace key (a namespace key
containing ":" can collide with a command carrying the moved colon). -/
theorem C7_amended (digest : String → String) (ns1 c1 ns2 c2 : String)
    (args : List String) (hinj : Function.Injective digest)
    (hcat : ns1 ++ c1 = ns2 ++ c2) (hne : ns1 ≠ ns2)
    (h1 : ':' ∉ ns1.data) (h2 : ':' ∉ ns2.data) :
    cacheFileName digest ns1 c1 args ≠ cacheFileName digest ns2 c2 args := by
  intro h
  have hin : hashInput ns1 c1 args = hashInput ns2 c2 args :=
    (cacheFileName_eq_iff digest hinj ns1 c1 args ns2 c2 args).mp h
  have hdata := congrArg String.data hin
  simp only [hashInput, strData_append, colon_data, space_data,
    List.append_assoc, List.cons_append, List.nil_append] at hdata
  have hcatData : ns1.data ++ (c1.data ++ ' ' :: (joinSpace args).data)
      = ns2.data ++ (c2.data ++ ' ' :: (joinSpace args).data) := by
    have h0 : ns1.data ++ c1.data = ns2.data ++ c2.data := by
      simpa [strData_append] using congrArg String.data hcat
    have := congrArg (· ++ (' ' :: (joinSpace args).data)) h0
    simpa [List.append_assoc] using this
  have hneData : ns1.data ≠ ns2.data := fun hh => hne (strExt hh)
  exact sep_cons_append_ne hcatData hneData h1 h2 hdata

/-- C7 amended witness at the spec's own example. -/
theorem C7_amended_witness :
    cacheFileName (fun s => s) "a" "bc" ["x"] ≠ cacheFileName (fun s => s) "ab" "c" ["x"] :=
  C7_amended (fun s => s) "a" "bc" "ab" "c" ["x"] (fun _ _ h => h)
    (by decide) (by decide) (by decide) (by decide)

/-! ## Claim C8 -/

/-- C8 counterexample: the claim fails as stated.  The argument lists
["a b"] and ["a", "b"] differ in count (and content), yet their
space-joined forms coincide, so the digest inputs are identical and the
keys collide for any digest function — collision-freeness of the digest
does not help. -/
theorem C8_cex :
    cacheFileName (fun s => s) "k" "c" ["a b"] = cacheFileName (fun s => s) "k" "c" ["a", "b"] ∧
    (["a b"] : List String) ≠ ["a", "b"] ∧
    (["a b"] : List String).length ≠ (["a", "b"] : List String).length := by decide

/-- C8 (amended): with a collision-free digest, identical triples always
yield identical keys; a difference in namespace key alone always yields
a different key; and two argument lists (same namespace and command)
yield the same key exactly when their space-joined strings coincide — so
argument-order or argument-count differences give different keys
precisely when the joined strings differ (arguments containing spaces
can collide). -/
theorem C8_amended (digest : String → String) (hinj : Function.Injective digest) :
    (∀ ns1 ns2 c args, cacheFileName digest ns1 c args = cacheFileName digest ns2 c args
        ↔ ns1 = ns2) ∧
    (∀ ns c a1 a2, cacheFileName digest ns c a1 = cacheFileName digest ns c a2
        ↔ joinSpace a1 = joinSpace a2) := by
  constructor
  · intro ns1 ns2 c args
    rw [cacheFileName_eq_iff digest hinj]
    constructor
    · intro h
      have hd := congrArg String.data h
      simp only [hashInput, strData_append, List.append_assoc] at hd
      exact strExt (List.append_cancel_right hd)
    · intro h
      rw [h]
  · intro ns c a1 a2
    rw [cacheFileName_eq_iff digest hinj]
    constructor
    · intro h
      simp only [hashInput] at h
      exact strAppend_cancel_left h
    · intro h
      simp [hashInput, h]

/-- C8 amended witness: distinct namespaces give distinct keys, and
space-free argument reorderings give distinct keys. -/
theorem C8_amended_witness :
    cacheFileName (fun s => s) "n1" "c" ["x"] ≠ cacheFileName (fun s => s) "n2" "c" ["x"] ∧
    cacheFileName (fun s => s) "n" "c" ["a", "b"] ≠ cacheFileName (fun s => s) "n" "c" ["b", "a"] :=
  ⟨fun heq => absurd (((C8_amended (fun s => s) (fun _ _ h => h)).1 "n1" "n2" "c" ["x"]).mp heq)
      (by decide),
   fun heq => absurd (((C8_amended (fun s => s) (fun _ _ h => h)).2 "n" "c" ["a", "b"] ["b", "a"]).mp heq)
      (by decide)⟩

/-! ## Claim C9 -/

/-- C9: reading the exit-code artifact never errors (the model function
is total) and always returns an integer in the range 0 to 9; the result
depends only on the first byte of the artifact, so multi-digit stored
codes are truncated to their first digit; a missing, empty, or non-digit
artifact yields 0. -/
theorem C9_read_exit_code (fs : FS) (path : String) :
    (0 ≤ readExitCodeFromCache fs path ∧ readExitCodeFromCache fs path ≤ 9) ∧
    (fsGet fs path = none → readExitCodeFromCache fs path = 0) ∧
    (∀ e, fsGet fs path = some e → e.content.data = [] →
      readExitCodeFromCache fs path = 0) ∧
    (∀ e c rest, fsGet fs path = some e → e.content.data = c :: rest →
      readExitCodeFromCache fs path = atoi1 c) ∧
    (∀ c, (¬(48 ≤ c.toNat ∧ c.toNat ≤ 57) → atoi1 c = 0) ∧
      0 ≤ atoi1 c ∧ atoi1 c ≤ 9) := by
  have hrange : ∀ c : Char, 0 ≤ atoi1 c ∧ atoi1 c ≤ 9 := by
    intro c
    unfold atoi1
    split
    · omega
    · omega
  refine ⟨?_, ?_, ?_, ?_, ?_⟩
  · cases h : fsGet fs path with
    | none => simp [readExitCodeFromCache, h]
    | some e =>
      cases hc : e.content.data with
      | nil => simpa [readExitCodeFromCache, h, hc] using hrange (Char.ofNat 0)
      | cons c rest => simpa [readExitCodeFromCache, h, hc] using hrange c
  · intro h
    simp [readExitCodeFromCache, h]
  · intro e he hc
    simp [readExitCodeFromCache, he, hc, atoi1]
  · intro e c rest he hc
    simp [readExitCodeFromCache, he, hc]
  · intro c
    refine ⟨?_, hrange c⟩
    intro h
    simp [atoi1, h]

/-- C9 witness: the two-digit artifact "35" reads back as 3; a missing
artifact reads as 0. -/
theorem C9_witness :
    readExitCodeFromCache [("p", ⟨"35", 0⟩)] "p" = atoi1 '3' ∧
    readExitCodeFromCache [] "p" = 0 :=
  ⟨(C9_read_exit_code [("p", ⟨"35", 0⟩)] "p").2.2.2.1 ⟨"35", 0⟩ '3' ['5']
      (by decide) (by decide),
   (C9_read_exit_code [] "p").2.1 rfl⟩

/-! ## Claim C4 -/

/-- C4 counterexample: the claim fails as stated.  The record exists and
its age relative to the caller-supplied clock (60000000000 ns) is 0, well
below the TTL of 1000000000 ns, so the claim demands a hit — but because
the injected clock falls on a whole-minute boundary (`Second() == 0`,
main.go line 261) the code silently substitutes the ambient system clock
(1000000000000 ns) and reports the record stale. -/
theorem C4_cex :
    shouldUseCache [("p", ⟨"x", 60000000000⟩)] 60000000000 1000000000000 1000000000 "p"
        = false ∧
    (60000000000 : Int) - 60000000000 < 1000000000 := by decide

/-- C4 (amended): the cached record is served as a hit exactly when
`usedNow - lastModified < ttl`, where `usedNow` is the caller-supplied
clock unless its second-of-minute is zero, in which case the ambient
system clock is substituted (this is how the zero-value "not injected"
sentinel is detected); consequently a ttl of zero forces re-execution
whenever the record's timestamp does not lie in the future of that
clock. -/
theorem C4_amended (fs : FS) (injected sysNow ttl : Int) (path : String) :
    (shouldUseCache fs injected sysNow ttl path = true ↔
      ∃ e, fsGet fs path = some e ∧ usedNow injected sysNow - e.modTime < ttl) ∧
    (ttl = 0 → ∀ e, fsGet fs path = some e → e.modTime ≤ usedNow injected sysNow →
      shouldUseCache fs injected sysNow ttl path = false) := by
  constructor
  · cases h : fsGet fs path with
    | none => simp [shouldUseCache, h]
    | some e =>
      simp only [shouldUseCache, h, decide_eq_true_eq]
      constructor
      · intro hlt
        exact ⟨e, rfl, by omega⟩
      · rintro ⟨e', he', hlt⟩
        obtain rfl := Option.some.inj he'
        omega
  · intro h0 e he hle
    subst h0
    simp only [shouldUseCache, he, decide_eq_false_iff_not]
    omega

/-- C4 amended witness: a stored record with ttl zero and a
non-future timestamp is stale. -/
theorem C4_amended_witness :
    shouldUseCache [("p", ⟨"x", 5⟩)] 61000000000 99 0 "p" = false :=
  (C4_amended [("p", ⟨"x", 5⟩)] 61000000000 99 0 "p").2 rfl ⟨"x", 5⟩ (by decide) (by decide)

/-! ## Claim C1 -/

/-- C1 code-bug evidence: a command exiting 35 on a miss returns exit
code 35 and caches the decimal string "35", but the subsequent cache hit
replays exit code 3 — `readExitCodeFromCache` reads one byte of the
artifact its own writer produced with `%d` — so the process exit code
does not equal the underlying command's exit code on the hit path. -/
theorem C1_exit_truncation_bug :
    (Run (fun _ => "H") ⟨100000000000, false, "d", "k"⟩ "c" [] 0 5000000000
        (CmdBehavior.runs "out" "er" 35) true "d/t1" "d/t2" []).exitcode = 35 ∧
    fsGet (Run (fun _ => "H") ⟨100000000000, false, "d", "k"⟩ "c" [] 0 5000000000
        (CmdBehavior.runs "out" "er" 35) true "d/t1" "d/t2" []).fs "d/v1-H.EXIT_CODE"
      = some ⟨"35", 5000000000⟩ ∧
    Run (fun _ => "H") ⟨100000000000, false, "d", "k"⟩ "c" [] 61000000000 0
        (CmdBehavior.runs "x" "y" 0) true "d/t1" "d/t2"
        (Run (fun _ => "H") ⟨100000000000, false, "d", "k"⟩ "c" [] 0 5000000000
          (CmdBehavior.runs "out" "er" 35) true "d/t1" "d/t2" []).fs
      = ⟨(Run (fun _ => "H") ⟨100000000000, false, "d", "k"⟩ "c" [] 0 5000000000
          (CmdBehavior.runs "out" "er" 35) true "d/t1" "d/t2" []).fs, 3, none⟩ := by
  decide

/-! ## Claim C2 -/

/-- C2 counterexample: the claim fails as stated.  Starting from a fully
committed record (stdout "old", stderr "olde", exit code "3"), a forced
refresh whose command exits 0 commits new stdout and stderr artifacts
but leaves the stale exit-code artifact "3" in place (`cacheExitCode` is
only called for non-zero exits, and writes in place rather than through
a temp file) — a reader of the resulting record observes a mixture of
the new and the old record. -/
theorem C2_cex :
    fsGet (Run (fun _ => "H") ⟨0, false, "d", "k"⟩ "c" [] 1000000000 5
        (CmdBehavior.runs "new" "newe" 0) true "d/t1" "d/t2"
        [("d/v1-H.STDOUT", ⟨"old", 0⟩), ("d/v1-H.STDERR", ⟨"olde", 0⟩),
         ("d/v1-H.EXIT_CODE", ⟨"3", 0⟩)]).fs "d/v1-H.STDOUT" = some ⟨"new", 5⟩ ∧
    fsGet (Run (fun _ => "H") ⟨0, false, "d", "k"⟩ "c" [] 1000000000 5
        (CmdBehavior.runs "new" "newe" 0) true "d/t1" "d/t2"
        [("d/v1-H.STDOUT", ⟨"old", 0⟩), ("d/v1-H.STDERR", ⟨"olde", 0⟩),
         ("d/v1-H.EXIT_CODE", ⟨"3", 0⟩)]).fs "d/v1-H.EXIT_CODE" = some ⟨"3", 0⟩ ∧
    readExitCodeFromCache (Run (fun _ => "H") ⟨0, false, "d", "k"⟩ "c" [] 1000000000 5
        (CmdBehavior.runs "new" "newe" 0) true "d/t1" "d/t2"
        [("d/v1-H.STDOUT", ⟨"old", 0⟩), ("d/v1-H.STDERR", ⟨"olde", 0⟩),
         ("d/v1-H.EXIT_CODE", ⟨"3", 0⟩)]).fs "d/v1-H.EXIT_CODE" = 3 := by
  decide

/-- C2 (amended): on a miss whose command runs to completion, the stdout
and stderr artifacts are each staged to a temp file and committed by
rename — afterwards the stdout artifact holds the command's stdout, the
stderr artifact its stderr, both temp files are gone, and no unrelated
path is touched; the exit-code artifact however is NOT written through
the stage-then-rename path: it is written in place by `cacheExitCode`,
and only when the command exits non-zero — after a zero exit the
previous exit-code artifact, if any, survives, so a reader can observe
a mixture of old and new record. -/
theorem C2_amended (digest : String → String) (opt : Opt) (cmdName : String)
    (cmdArgs : List String) (injected sysNow : Int) (out errOut : String)
    (code : Int) (spawnOk : Bool) (tmp1 tmp2 : String) (fs : FS) (so se ec : String)
    (hso : so = stdoutPath digest opt cmdName cmdArgs)
    (hse : se = stderrPath digest opt cmdName cmdArgs)
    (hec : ec = exitCodePath digest opt cmdName cmdArgs)
    (hmiss : shouldUseCache fs injected sysNow opt.ttl so = false)
    (h12 : tmp1 ≠ tmp2) (h1so : tmp1 ≠ so) (h1se : tmp1 ≠ se) (h1ec : tmp1 ≠ ec)
    (h2so : tmp2 ≠ so) (h2se : tmp2 ≠ se) (h2ec : tmp2 ≠ ec)
    (hsose : so ≠ se) (hsoec : so ≠ ec) (hseec : se ≠ ec) :
    fsGet (fromCacheOrRun digest opt cmdName cmdArgs injected sysNow
        (CmdBehavior.runs out errOut code) spawnOk tmp1 tmp2 fs).fs so
      = some ⟨out, sysNow⟩ ∧
    fsGet (fromCacheOrRun digest opt cmdName cmdArgs injected sysNow
        (CmdBehavior.runs out errOut code) spawnOk tmp1 tmp2 fs).fs se
      = some ⟨errOut, sysNow⟩ ∧
    fsGet (fromCacheOrRun digest opt cmdName cmdArgs injected sysNow
        (CmdBehavior.runs out errOut code) spawnOk tmp1 tmp2 fs).fs ec
      = (if code = 0 then fsGet fs ec else some ⟨toString code, sysNow⟩) ∧
    fsGet (fromCacheOrRun digest opt cmdName cmdArgs injected sysNow
        (CmdBehavior.runs out errOut code) spawnOk tmp1 tmp2 fs).fs tmp1 = none ∧
    fsGet (fromCacheOrRun digest opt cmdName cmdArgs injected sysNow
        (CmdBehavior.runs out errOut code) spawnOk tmp1 tmp2 fs).fs tmp2 = none ∧
    (∀ p, p ≠ so → p ≠ se → p ≠ ec → p ≠ tmp1 → p ≠ tmp2 →
      fsGet (fromCacheOrRun digest opt cmdName cmdArgs injected sysNow
        (CmdBehavior.runs out errOut code) spawnOk tmp1 tmp2 fs).fs p = fsGet fs p) := by
  have hrun : fromCacheOrRun digest opt cmdName cmdArgs injected sysNow
      (CmdBehavior.runs out errOut code) spawnOk tmp1 tmp2 fs
      = missPath fs so se ec sysNow (CmdBehavior.runs out errOut code) tmp1 tmp2 := by
    unfold fromCacheOrRun
    rw [← hso, ← hse, ← hec, if_neg (by simp [hmiss])]
  simp only [hrun]
  have ht2X : fsGet (fsSet (fsSet (fsSet (fsSet fs tmp1 ⟨"", sysNow⟩) tmp2 ⟨"", sysNow⟩)
      tmp1 ⟨out, sysNow⟩) tmp2 ⟨errOut, sysNow⟩) tmp2 = some ⟨errOut, sysNow⟩ :=
    fsGet_set_self _ _ _
  have ht1X : fsGet (fsSet (fsSet (fsSet (fsSet fs tmp1 ⟨"", sysNow⟩) tmp2 ⟨"", sysNow⟩)
      tmp1 ⟨out, sysNow⟩) tmp2 ⟨errOut, sysNow⟩) tmp1 = some ⟨out, sysNow⟩ := by
    rw [fsGet_set_ne _ _ _ _ (Ne.symm h12), fsGet_set_self]
  have hXp : ∀ p, p ≠ tmp1 → p ≠ tmp2 →
      fsGet (fsSet (fsSet (fsSet (fsSet fs tmp1 ⟨"", sysNow⟩) tmp2 ⟨"", sysNow⟩)
        tmp1 ⟨out, sysNow⟩) tmp2 ⟨errOut, sysNow⟩) p = fsGet fs p := by
    intro p hp1 hp2
    rw [fsGet_set_ne _ _ _ _ (Ne.symm hp2), fsGet_set_ne _ _ _ _ (Ne.symm hp1),
      fsGet_set_ne _ _ _ _ (Ne.symm hp2), fsGet_set_ne _ _ _ _ (Ne.symm hp1)]
  by_cases hc : code = 0
  · subst hc
    have hmp : missPath fs so se ec sysNow (CmdBehavior.runs out errOut 0) tmp1 tmp2
        = ⟨fsRename (fsRename (fsSet (fsSet (fsSet (fsSet fs tmp1 ⟨"", sysNow⟩)
            tmp2 ⟨"", sysNow⟩) tmp1 ⟨out, sysNow⟩) tmp2 ⟨errOut, sysNow⟩) tmp2 se)
            tmp1 so, 0, none⟩ := rfl
    simp only [hmp]
    have G := rename_commit_gets _ tmp1 tmp2 so se ⟨out, sysNow⟩ ⟨errOut, sysNow⟩
      h12 h1so h1se h2so h2se hsose ht1X ht2X
    refine ⟨G.1, G.2.1, ?_, G.2.2.1, G.2.2.2.1, ?_⟩
    · simp only [if_true]
      exact (G.2.2.2.2 ec (Ne.symm hsoec) (Ne.symm hseec) (Ne.symm h1ec)
        (Ne.symm h2ec)).trans (hXp ec (Ne.symm h1ec) (Ne.symm h2ec))
    · intro p hpso hpse _hpec hpt1 hpt2
      exact (G.2.2.2.2 p hpso hpse hpt1 hpt2).trans (hXp p hpt1 hpt2)
  · have hmp : missPath fs so se ec sysNow (CmdBehavior.runs out errOut code) tmp1 tmp2
        = ⟨fsRename (fsRename (fsSet (fsSet (fsSet (fsSet (fsSet fs tmp1 ⟨"", sysNow⟩)
            tmp2 ⟨"", sysNow⟩) tmp1 ⟨out, sysNow⟩) tmp2 ⟨errOut, sysNow⟩)
            ec ⟨toString code, sysNow⟩) tmp2 se) tmp1 so, code, none⟩ := by
      simp only [missPath]
      rw [if_neg hc]
    simp only [hmp]
    have ht1Y : fsGet (fsSet (fsSet (fsSet (fsSet (fsSet fs tmp1 ⟨"", sysNow⟩)
        tmp2 ⟨"", sysNow⟩) tmp1 ⟨out, sysNow⟩) tmp2 ⟨errOut, sysNow⟩)
        ec ⟨toString code, sysNow⟩) tmp1 = some ⟨out, sysNow⟩ := by
      rw [fsGet_set_ne _ _ _ _ (Ne.symm h1ec)]
      exact ht1X
    have ht2Y : fsGet (fsSet (fsSet (fsSet (fsSet (fsSet fs tmp1 ⟨"", sysNow⟩)
        tmp2 ⟨"", sysNow⟩) tmp1 ⟨out, sysNow⟩) tmp2 ⟨errOut, sysNow⟩)
        ec ⟨toString code, sysNow⟩) tmp2 = some ⟨errOut, sysNow⟩ := by
      rw [fsGet_set_ne _ _ _ _ (Ne.symm h2ec)]
      exact ht2X
    have G := rename_commit_gets _ tmp1 tmp2 so se ⟨out, sysNow⟩ ⟨errOut, sysNow⟩
      h12 h1so h1se h2so h2se hsose ht1Y ht2Y
    refine ⟨G.1, G.2.1, ?_, G.2.2.1, G.2.2.2.1, ?_⟩
    · rw [if_neg hc]
      exact (G.2.2.2.2 ec (Ne.symm hsoec) (Ne.symm hseec) (Ne.symm h1ec)
        (Ne.symm h2ec)).trans (fsGet_set_self _ _ _)
    · intro p hpso hpse hpec hpt1 hpt2
      refine (G.2.2.2.2 p hpso hpse hpt1 hpt2).trans ?_
      rw [fsGet_set_ne _ _ _ _ (Ne.symm hpec)]
      exact hXp p hpt1 hpt2

/-- C2 amended witness: a concrete miss with exit code 7 commits all
three artifacts (the exit code in place, as "7"). -/
theorem C2_amended_witness :
    fsGet (fromCacheOrRun (fun _ => "H") ⟨0, false, "d", "k"⟩ "c" [] 1000000000 5
        (CmdBehavior.runs "out" "er" 7) true "d/t1" "d/t2" []).fs "d/v1-H.STDOUT"
      = some ⟨"out", 5⟩ ∧
    fsGet (fromCacheOrRun (fun _ => "H") ⟨0, false, "d", "k"⟩ "c" [] 1000000000 5
        (CmdBehavior.runs "out" "er" 7) true "d/t1" "d/t2" []).fs "d/v1-H.EXIT_CODE"
      = some ⟨"7", 5⟩ := by
  have h := C2_amended (fun _ => "H") ⟨0, false, "d", "k"⟩ "c" [] 1000000000 5
    "out" "er" 7 true "d/t1" "d/t2" [] "d/v1-H.STDOUT" "d/v1-H.STDERR" "d/v1-H.EXIT_CODE"
    (by decide) (by decide) (by decide) (by decide) (by decide) (by decide) (by decide)
    (by decide) (by decide) (by decide) (by decide) (by decide) (by decide) (by decide)
  exact ⟨h.1, h.2.2.1⟩

/-! ## Claim C3 -/

/-- C3 code-bug evidence: on a startup failure (binary cannot be
started) over an existing record, the invocation exits 1 as claimed, but
the hard error is NOT reported — the deferred `err = finallyOut()` /
`err = finallyErr()` assignments overwrite the returned error with nil —
and the previously existing record is only partially removed: the
STDOUT and STDERR artifacts are deleted while the EXIT_CODE artifact
"3" is left in place. -/
theorem C3_startfail_bug :
    Run (fun _ => "H") ⟨0, false, "d", "k"⟩ "c" [] 1000000000 0 CmdBehavior.startFail
        true "d/t1" "d/t2"
        [("d/v1-H.STDOUT", ⟨"old", 0⟩), ("d/v1-H.STDERR", ⟨"olde", 0⟩),
         ("d/v1-H.EXIT_CODE", ⟨"3", 0⟩)]
      = ⟨[("d/v1-H.EXIT_CODE", ⟨"3", 0⟩)], 1, none⟩ := by
  decide

/-! ## Claim C5 -/

/-- C5 counterexample: the claim fails as stated.  With a fresh STDOUT
artifact but a missing STDERR artifact, the hit path's failed open of
the stderr artifact is returned as a hard error (exit code 1) instead of
being treated as a miss: the command is not re-executed (it would have
exited 7 and committed output "X") and the file system is untouched. -/
theorem C5_cex :
    Run (fun _ => "H") ⟨2000000000, false, "d", "k"⟩ "c" [] 1000000000 0
        (CmdBehavior.runs "X" "Y" 7) true "d/t1" "d/t2"
        [("d/v1-H.STDOUT", ⟨"o", 0⟩)]
      = ⟨[("d/v1-H.STDOUT", ⟨"o", 0⟩)], 1, some (GoErr.openErr "d/v1-H.STDERR")⟩ := by
  decide

/-! ## Claim C6 -/

/-- C6 counterexample: the claim fails as stated.  On an async cache hit
whose cached exit code is 0 (here the exit-code artifact is absent,
which reads as 0), a failed launch of the background refresh makes the
invocation return that error, and `Run` converts the zero exit code to
1: the invocation neither succeeds nor exits with the cached code. -/
theorem C6_cex :
    Run (fun _ => "H") ⟨2000000000, true, "d", "k"⟩ "c" [] 1000000000 0
        CmdBehavior.startFail false "d/t1" "d/t2"
        [("d/v1-H.STDOUT", ⟨"o", 0⟩), ("d/v1-H.STDERR", ⟨"e", 0⟩)]
      = ⟨[("d/v1-H.STDOUT", ⟨"o", 0⟩), ("d/v1-H.STDERR", ⟨"e", 0⟩)], 1,
          some GoErr.spawnErr⟩ ∧
    readExitCodeFromCache [("d/v1-H.STDOUT", ⟨"o", 0⟩), ("d/v1-H.STDERR", ⟨"e", 0⟩)]
        "d/v1-H.EXIT_CODE" = 0 := by
  decide

/-- The hit block never modifies the file system. -/
theorem hitPath_fs (fs : FS) (so se ec : String) (async spawnOk : Bool) :
    (hitPath fs so se ec async spawnOk).fs = fs := by
  unfold hitPath
  cases fsGet fs so with
  | none => rfl
  | some e1 =>
    cases fsGet fs se with
    | none => rfl
    | some e2 => cases async <;> rfl

/-- `Run` only post-processes the exit code and error of
`fromCacheOrRun`; the file system passes through unchanged. -/
theorem Run_fs_eq (digest : String → String) (opt : Opt) (cmdName : String)
    (cmdArgs : List String) (injected sysNow : Int) (beh : CmdBehavior)
    (spawnOk : Bool) (tmp1 tmp2 : String) (fs : FS) :
    (Run digest opt cmdName cmdArgs injected sysNow beh spawnOk tmp1 tmp2 fs).fs
      = (fromCacheOrRun digest opt cmdName cmdArgs injected sysNow beh spawnOk tmp1 tmp2 fs).fs := by
  simp only [Run]
  split <;> rfl

/-- C5 (amended): a missing stdout artifact (the freshness probe's
target) is treated as a cache miss — the command is re-executed, its
exit code is returned and no error is surfaced; but a cache-read failure
after the hit decision is surfaced as a hard error: with a fresh stdout
artifact and a missing stderr artifact the invocation returns the open
error and exit code 1 instead of re-executing. -/
theorem C5_amended (digest : String → String) (opt : Opt) (cmdName : String)
    (cmdArgs : List String) (injected sysNow : Int) (beh : CmdBehavior)
    (out errOut : String) (code : Int) (spawnOk : Bool) (tmp1 tmp2 : String) (fs : FS) :
    (fsGet fs (stdoutPath digest opt cmdName cmdArgs) = none →
      (Run digest opt cmdName cmdArgs injected sysNow (CmdBehavior.runs out errOut code)
          spawnOk tmp1 tmp2 fs).exitcode = code ∧
      (Run digest opt cmdName cmdArgs injected sysNow (CmdBehavior.runs out errOut code)
          spawnOk tmp1 tmp2 fs).err = none) ∧
    (shouldUseCache fs injected sysNow opt.ttl (stdoutPath digest opt cmdName cmdArgs) = true →
      fsGet fs (stderrPath digest opt cmdName cmdArgs) = none →
      (Run digest opt cmdName cmdArgs injected sysNow beh spawnOk tmp1 tmp2 fs).err
          = some (GoErr.openErr (stderrPath digest opt cmdName cmdArgs)) ∧
      (Run digest opt cmdName cmdArgs injected sysNow beh spawnOk tmp1 tmp2 fs).exitcode = 1) := by
  constructor
  · intro hso
    have hmiss : shouldUseCache fs injected sysNow opt.ttl
        (stdoutPath digest opt cmdName cmdArgs) = false := by
      simp [shouldUseCache, hso]
    have hrun : fromCacheOrRun digest opt cmdName cmdArgs injected sysNow
        (CmdBehavior.runs out errOut code) spawnOk tmp1 tmp2 fs
        = missPath fs (stdoutPath digest opt cmdName cmdArgs)
            (stderrPath digest opt cmdName cmdArgs)
            (exitCodePath digest opt cmdName cmdArgs) sysNow
            (CmdBehavior.runs out errOut code) tmp1 tmp2 := by
      simp [fromCacheOrRun, hmiss]
    by_cases hc : code = 0
    · subst hc
      simp [Run, hrun, missPath]
    · simp [Run, hrun, missPath, hc]
  · intro hhit hse
    obtain ⟨e1, hso⟩ : ∃ e, fsGet fs (stdoutPath digest opt cmdName cmdArgs) = some e := by
      cases h : fsGet fs (stdoutPath digest opt cmdName cmdArgs) with
      | none => simp [shouldUseCache, h] at hhit
      | some e => exact ⟨e, rfl⟩
    have hrun : fromCacheOrRun digest opt cmdName cmdArgs injected sysNow beh
        spawnOk tmp1 tmp2 fs
        = ⟨fs, 0, some (GoErr.openErr (stderrPath digest opt cmdName cmdArgs))⟩ := by
      simp [fromCacheOrRun, hitPath, hhit, hso, hse]
    refine ⟨?_, ?_⟩ <;> simp [Run, hrun]

/-- C5 amended witness: an empty cache is a miss and the command's exit
code 7 is returned without error. -/
theorem C5_amended_witness :
    (Run (fun _ => "H") ⟨0, false, "d", "k"⟩ "c" [] 1000000000 5
        (CmdBehavior.runs "X" "Y" 7) true "d/t1" "d/t2" []).exitcode = 7 ∧
    (Run (fun _ => "H") ⟨0, false, "d", "k"⟩ "c" [] 1000000000 5
        (CmdBehavior.runs "X" "Y" 7) true "d/t1" "d/t2" []).err = none :=
  (C5_amended (fun _ => "H") ⟨0, false, "d", "k"⟩ "c" [] 1000000000 5
      CmdBehavior.startFail "X" "Y" 7 true "d/t1" "d/t2" []).1 (by decide)

/-- C6 (amended): on an async cache hit, a failure to launch the
detached background refresh is reported as an error, and the invocation
exits with the cached exit code only when that code is non-zero — a
cached exit code of zero is converted to exit code 1 by `Run`. -/
theorem C6_amended (digest : String → String) (opt : Opt) (cmdName : String)
    (cmdArgs : List String) (injected sysNow : Int) (beh : CmdBehavior)
    (tmp1 tmp2 : String) (fs : FS) (e1 e2 : FileEntry)
    (hhit : shouldUseCache fs injected sysNow opt.ttl
      (stdoutPath digest opt cmdName cmdArgs) = true)
    (hso : fsGet fs (stdoutPath digest opt cmdName cmdArgs) = some e1)
    (hse : fsGet fs (stderrPath digest opt cmdName cmdArgs) = some e2)
    (hasync : opt.async = true) :
    (Run digest opt cmdName cmdArgs injected sysNow beh false tmp1 tmp2 fs).err
        = some GoErr.spawnErr ∧
    (Run digest opt cmdName cmdArgs injected sysNow beh false tmp1 tmp2 fs).exitcode
        = (if readExitCodeFromCache fs (exitCodePath digest opt cmdName cmdArgs) = 0
            then 1
            else readExitCodeFromCache fs (exitCodePath digest opt cmdName cmdArgs)) := by
  have hrun : fromCacheOrRun digest opt cmdName cmdArgs injected sysNow beh
      false tmp1 tmp2 fs
      = ⟨fs, readExitCodeFromCache fs (exitCodePath digest opt cmdName cmdArgs),
          some GoErr.spawnErr⟩ := by
    simp [fromCacheOrRun, hitPath, hhit, hso, hse, hasync]
  constructor
  · by_cases hc : readExitCodeFromCache fs (exitCodePath digest opt cmdName cmdArgs) = 0 <;>
      simp [Run, hrun, hc]
  · by_cases hc : readExitCodeFromCache fs (exitCodePath digest opt cmdName cmdArgs) = 0 <;>
      simp [Run, hrun, hc]

/-- C6 amended witness: with a cached exit code 7 the invocation exits 7
even though the spawn failure is reported. -/
theorem C6_amended_witness :
    (Run (fun _ => "H") ⟨2000000000, true, "d", "k"⟩ "c" [] 1000000000 0
        CmdBehavior.startFail false "d/t1" "d/t2"
        [("d/v1-H.STDOUT", ⟨"o", 0⟩), ("d/v1-H.STDERR", ⟨"e", 0⟩),
         ("d/v1-H.EXIT_CODE", ⟨"7", 0⟩)]).err = some GoErr.spawnErr ∧
    (Run (fun _ => "H") ⟨2000000000, true, "d", "k"⟩ "c" [] 1000000000 0
        CmdBehavior.startFail false "d/t1" "d/t2"
        [("d/v1-H.STDOUT", ⟨"o", 0⟩), ("d/v1-H.STDERR", ⟨"e", 0⟩),
         ("d/v1-H.EXIT_CODE", ⟨"7", 0⟩)]).exitcode = 7 := by
  have h := C6_amended (fun _ => "H") ⟨2000000000, true, "d", "k"⟩ "c" [] 1000000000 0
    CmdBehavior.startFail "d/t1" "d/t2"
    [("d/v1-H.STDOUT", ⟨"o", 0⟩), ("d/v1-H.STDERR", ⟨"e", 0⟩),
     ("d/v1-H.EXIT_CODE", ⟨"7", 0⟩)]
    ⟨"o", 0⟩ ⟨"e", 0⟩ (by decide) (by decide) (by decide) rfl
  refine ⟨h.1, ?_⟩
  rw [h.2]
  decide

/-! ## Claim C10 -/

/-- C10: on a cache hit with async mode disabled the invocation is
read-only with respect to the cache: the resulting file system is
exactly the initial one, so no file under the cache directory is
created, modified or removed, and every record's last-modified
timestamp is unchanged. -/
theorem C10_hit_readonly (digest : String → String) (opt : Opt) (cmdName : String)
    (cmdArgs : List String) (injected sysNow : Int) (beh : CmdBehavior)
    (spawnOk : Bool) (tmp1 tmp2 : String) (fs : FS)
    (hhit : shouldUseCache fs injected sysNow opt.ttl
      (stdoutPath digest opt cmdName cmdArgs) = true)
    (_hasync : opt.async = false) :
    (Run digest opt cmdName cmdArgs injected sysNow beh spawnOk tmp1 tmp2 fs).fs = fs := by
  rw [Run_fs_eq]
  unfold fromCacheOrRun
  rw [if_pos hhit]
  exact hitPath_fs fs _ _ _ opt.async spawnOk

/-- C10 witness: a concrete fresh hit with async off leaves the cache
untouched. -/
theorem C10_hit_readonly_witness :
    (Run (fun _ => "H") ⟨2000000000, false, "d", "k"⟩ "c" [] 1000000000 0
        (CmdBehavior.runs "X" "Y" 7) true "d/t1" "d/t2"
        [("d/v1-H.STDOUT", ⟨"o", 0⟩), ("d/v1-H.STDERR", ⟨"e", 0⟩),
         ("d/v1-H.EXIT_CODE", ⟨"3", 0⟩)]).fs
      = [("d/v1-H.STDOUT", ⟨"o", 0⟩), ("d/v1-H.STDERR", ⟨"e", 0⟩),
         ("d/v1-H.EXIT_CODE", ⟨"3", 0⟩)] :=
  C10_hit_readonly (fun _ => "H") ⟨2000000000, false, "d", "k"⟩ "c" [] 1000000000 0
    (CmdBehavior.runs "X" "Y" 7) true "d/t1" "d/t2"
    [("d/v1-H.STDOUT", ⟨"o", 0⟩), ("d/v1-H.STDERR", ⟨"e", 0⟩),
     ("d/v1-H.EXIT_CODE", ⟨"3", 0⟩)] (by decide) rfl

end Cachecmd
